import Mathlib

/-!
Shallow embedding of the KsanaLLM request-admission / batching / KV-cache
core, translated from the C++ sources, together with theorems settling the
frozen claims about the natural-language specification.

Sources embedded:
- src/ksana_llm/batch_manager/batch_scheduler/batch_scheduler.cpp
- src/ksana_llm/batch_manager/batch_manager.cpp
- src/ksana_llm/block_manager/block_manager.cpp
- src/ksana_llm/models/llama/llama.cpp (tensor marshalling)
-/

namespace KsanaLLM

/-- Return codes (`utils/ret_code.h`; the header is not among the given
sources, the constructors are the ones the given sources and the spec's
error taxonomy use). -/
inductive RetCode where
  | RET_SUCCESS
  | RET_EXCEED_CAPACITY
  | RET_EXCEED_LENGTH
  | RET_OUT_OF_DEVICE_MEMORY
  | RET_INSUFFICIENT_HOST_MEMORY
  | RET_INVALID_ARGUMENT
  | RET_UNIMPLEMENTED
  | RET_STOPPED
  deriving DecidableEq, Repr

/-- `Status` (`utils/status.h`): a return code plus a message; the message
plays no role in any claim and is dropped. `Status()` is success. -/
structure Status where
  code : RetCode
  deriving DecidableEq, Repr

/-- `Status::OK()`. -/
def Status.OK (s : Status) : Bool := s.code = RetCode.RET_SUCCESS

/-- The default-constructed `Status()`. -/
def Status.ok : Status := ⟨RetCode.RET_SUCCESS⟩

/-- `InferStage` of a request: prompt prefill or per-token generation. -/
inductive InferStage where
  | STAGE_CONTEXT
  | STAGE_DECODE
  deriving DecidableEq, Repr

/-- The fields of `BatchSchedulerConfig` read by the embedded code. -/
structure BatchSchedulerConfig where
  max_waiting_queue_len : Nat
  max_token_len : Nat
  max_step_tokens : Nat
  max_batch_size : Nat
  deriving DecidableEq, Repr

/-- The fields of `InferRequest` read or written by the embedded code.
`notify_count` counts the `Notify()` calls observed on this request (the
waiter itself is external); it starts at 0. -/
structure InferRequest where
  req_id : Nat
  model_name : String
  input_tokens : List Int
  finished : Bool
  finish_status : Status
  notify_count : Nat
  infer_stage : InferStage
  step : Nat
  block_size : Nat
  kv_cache_blocks : List (List Nat)
  deriving DecidableEq, Repr

/-- The two scheduler queues touched by `AddInferRequest`
(`BatchState`): the admitted waiting queue and the producer-side buffer
queue. -/
structure BatchState where
  waiting_queue : List InferRequest
  waiting_buffer_queue : List InferRequest
  deriving DecidableEq, Repr

/-- Observable events of `AddInferRequest`, in the order the source
performs them (field writes on requests, `Notify()` calls, pushes onto the
buffer queue). -/
inductive SchedEvent where
  | set_status (rid : Nat) (code : RetCode)
  | set_finished (rid : Nat)
  | notify (rid : Nat)
  | push_buffer (rid : Nat)
  deriving DecidableEq, Repr

/-- `BatchScheduler::CheckWaitingQueueFull` (batch_scheduler.cpp:86-88):
`waiting_queue.size() + num >= max_waiting_queue_len`. -/
def CheckWaitingQueueFull (cfg : BatchSchedulerConfig) (st : BatchState) (num : Nat) : Bool :=
  cfg.max_waiting_queue_len ≤ st.waiting_queue.length + num

/-- `BatchScheduler::CheckRequestExceedLength` (batch_scheduler.cpp:90-92):
`input_tokens.size() > max_token_len`. -/
def CheckRequestExceedLength (cfg : BatchSchedulerConfig) (req : InferRequest) : Bool :=
  cfg.max_token_len < req.input_tokens.length

/-- Result of `AddInferRequest`: returned status, updated queues, the
request group after its field writes, and the event trace. -/
structure AddInferResult where
  status : Status
  state : BatchState
  group : List InferRequest
  trace : List SchedEvent
  deriving DecidableEq, Repr

/-- The rejection branch of `AddInferRequest` (batch_scheduler.cpp:45-67).
The loop variable shadows the outer reference `infer_request` (which is
bound to `infer_request_group[0]`), so the status write and the
`Notify()` call hit only the first request of the group, while the
`finished = true` loop hits every request. -/
def RejectGroup (code : RetCode) (g0 : InferRequest) (rest : List InferRequest) :
    AddInferResult → AddInferResult := fun r =>
  { r with
    status := ⟨code⟩
    group :=
      { g0 with finish_status := ⟨code⟩, finished := true, notify_count := g0.notify_count + 1 }
        :: rest.map (fun q => { q with finished := true })
    trace :=
      SchedEvent.set_status g0.req_id code
        :: ((g0 :: rest).map (fun q => SchedEvent.set_finished q.req_id)
            ++ [SchedEvent.notify g0.req_id]) }

/-- `BatchScheduler::AddInferRequest` (batch_scheduler.cpp:41-74).
The source reads `infer_request_group[0]`; it is never called with an
empty group (the empty case below is dead and returns the input
unchanged). On rejection the queues are untouched; on acceptance every
request of the group is pushed onto `waiting_buffer_queue`. -/
def AddInferRequest (cfg : BatchSchedulerConfig) (st : BatchState)
    (group : List InferRequest) : AddInferResult :=
  match group with
  | [] => ⟨Status.ok, st, [], []⟩
  | g0 :: rest =>
    if CheckWaitingQueueFull cfg st (g0 :: rest).length then
      RejectGroup RetCode.RET_EXCEED_CAPACITY g0 rest ⟨Status.ok, st, g0 :: rest, []⟩
    else if CheckRequestExceedLength cfg g0 then
      RejectGroup RetCode.RET_EXCEED_LENGTH g0 rest ⟨Status.ok, st, g0 :: rest, []⟩
    else
      { status := Status.ok
        state := { st with waiting_buffer_queue := st.waiting_buffer_queue ++ (g0 :: rest) }
        group := g0 :: rest
        trace := (g0 :: rest).map (fun q => SchedEvent.push_buffer q.req_id) }

/-- The `NLLM_CHECK_WITH_INFO` validation in the `BatchScheduler`
constructor (batch_scheduler.cpp:30-39): the construction succeeds iff
`max_step_tokens > max_token_len`. -/
def BatchSchedulerCtorCheck (cfg : BatchSchedulerConfig) : Bool :=
  cfg.max_token_len < cfg.max_step_tokens

/-! ## Block manager (block_manager.cpp) -/

/-- `AllocatorConfig` fields read by the embedded code. -/
structure AllocatorConfig where
  block_size : Nat
  blocks_num : Nat
  block_token_num : Nat
  deriving DecidableEq, Repr

/-- `BlockManagerConfig` fields read by the embedded code. The C++ ratio
fields are `double`; they are modelled as exact rationals (all concrete
inputs used below are exactly representable in binary floating point, so
the modelled arithmetic agrees with the C++ one there). -/
structure BlockManagerConfig where
  reserved_device_memory_ratio : ℚ
  lora_host_memory_factor : ℚ
  block_host_memory_factor : ℚ
  block_device_memory_ratio : ℚ
  device_allocator_config : AllocatorConfig
  host_allocator_config : AllocatorConfig
  deriving DecidableEq, Repr

/-- Live memory readings, as returned by `GetDeviceMemoryInfo` /
`GetHostMemoryInfo` (bytes). -/
structure MemoryInfo where
  host_total : Nat
  host_free : Nat
  device_total : Nat
  device_free : Nat
  deriving DecidableEq, Repr

/-- The C++ conversion of a nonnegative `double` to `size_t`
(truncation toward zero; all values converted in the embedded code are
nonnegative, where truncation equals the floor). -/
def toSizeT (q : ℚ) : Nat := ⌊q⌋.toNat

/-- `alignment_bytes` local constant of `CalculateBlockNumber`. -/
def alignment_bytes : Nat := 8

/-- `BlockManager::CalculateBlockNumber` (block_manager.cpp:65-105).
The `NLLM_CHECK_WITH_INFO` aborts are modelled as errors; the final host
capacity check aborts with the spec's `INSUFFICIENT_HOST_MEMORY` kind.
Returns `(device_blocks_num, host_block_num)` on success.  In the
`block_device_memory_ratio < 0` branch, the C++ `size_t` subtraction
`device_free - reserved_memory_size` wraps on underflow; it is modelled
as truncated subtraction (the claims only exercise the `≥ 0` branch, and
sane configurations reserve less than the free bytes). -/
def CalculateBlockNumber (cfg : BlockManagerConfig) (mem : MemoryInfo) :
    Except Status (Nat × Nat) :=
  if ¬ (0 < cfg.reserved_device_memory_ratio) then Except.error ⟨RetCode.RET_INVALID_ARGUMENT⟩
  else if ¬ (1 < cfg.lora_host_memory_factor) then Except.error ⟨RetCode.RET_INVALID_ARGUMENT⟩
  else if ¬ (1 < cfg.block_host_memory_factor) then Except.error ⟨RetCode.RET_INVALID_ARGUMENT⟩
  else
    let device_block_memory_size : Nat :=
      if 0 ≤ cfg.block_device_memory_ratio then
        toSizeT ((mem.device_total : ℚ) * cfg.block_device_memory_ratio / (alignment_bytes : ℚ))
      else
        let reserved_memory_size : Nat :=
          toSizeT (((mem.device_total : ℚ) * cfg.reserved_device_memory_ratio / (alignment_bytes : ℚ) + 1)
            * (alignment_bytes : ℚ))
        ((mem.device_free - reserved_memory_size) / alignment_bytes + 1) * alignment_bytes
    let device_blocks_num := device_block_memory_size / cfg.device_allocator_config.block_size
    let host_block_num := toSizeT ((device_blocks_num : ℚ) * cfg.block_host_memory_factor)
    if ¬ (host_block_num * cfg.host_allocator_config.block_size < mem.host_free) then
      Except.error ⟨RetCode.RET_INSUFFICIENT_HOST_MEMORY⟩
    else Except.ok (device_blocks_num, host_block_num)

/-- Modelled from the spec: the claim's own formula for the device block
count when `block_device_memory_ratio ≥ 0`, namely
`device_blocks_num = (device_total * block_device_memory_ratio) / block_size`,
stated for comparison with the source's `CalculateBlockNumber`. -/
def ClaimedDeviceBlocksNum (cfg : BlockManagerConfig) (mem : MemoryInfo) : Nat :=
  toSizeT ((mem.device_total : ℚ) * cfg.block_device_memory_ratio)
    / cfg.device_allocator_config.block_size

/-- Modelled from the spec: block-allocator state (spec §4.1); the
allocator implementation files are not among the given sources (only the
predecessor header `numerous_llm/block_manager/block_allocator.h` is).
Every used block here carries reference count 1, matching the spec's
`AllocateBlocks` (`ref_count=1`) and the swap paths, which free whole
block lists at once. `addr_of` gives the fixed address of a block id. -/
structure AllocatorState where
  free_blocks : List Nat
  used_blocks : List Nat
  addr_of : Nat → Nat

/-- The all-zero allocator used as an out-of-range indexing default. -/
def AllocatorState.empty : AllocatorState := ⟨[], [], fun _ => 0⟩

/-- Modelled from the spec: `AllocateBlocks(n, out_ids)` pops `n` ids from
the free pool into the used map, all-or-nothing, failing with
`OUT_OF_DEVICE_MEMORY` when fewer than `n` blocks are free (spec §4.1). -/
def AllocateBlocks (st : AllocatorState) (n : Nat) :
    Except Status (List Nat × AllocatorState) :=
  if st.free_blocks.length < n then Except.error ⟨RetCode.RET_OUT_OF_DEVICE_MEMORY⟩
  else Except.ok (st.free_blocks.take n,
    { st with free_blocks := st.free_blocks.drop n,
              used_blocks := st.used_blocks ++ st.free_blocks.take n })

/-- Modelled from the spec: `GetBlockPtrs(ids, out_addrs)` succeeds iff
every id is tracked (used or free), returning the block addresses
(spec §4.1). -/
def GetBlockPtrs (st : AllocatorState) (ids : List Nat) : Except Status (List Nat) :=
  if ids.all (fun i => st.used_blocks.contains i || st.free_blocks.contains i) then
    Except.ok (ids.map st.addr_of)
  else Except.error ⟨RetCode.RET_INVALID_ARGUMENT⟩

/-- Modelled from the spec: `FreeBlocks(ids)` moves blocks whose reference
count reaches zero back to the free pool; an unknown id is
`INVALID_ARGUMENT` (spec §4.1). -/
def FreeBlocks (st : AllocatorState) (ids : List Nat) : Except Status AllocatorState :=
  if ids.all (fun i => st.used_blocks.contains i) then
    Except.ok { st with used_blocks := st.used_blocks.filter (fun i => ! ids.contains i),
                        free_blocks := st.free_blocks ++ ids }
  else Except.error ⟨RetCode.RET_INVALID_ARGUMENT⟩

/-- A CUDA stream, identified by what the context hands out:
`GetComputeStreams()[device_id]`. -/
inductive StreamTag where
  | compute (device_id : Nat)
  deriving DecidableEq, Repr

/-- The direction argument of `cudaMemcpyAsync`. -/
inductive CopyKind where
  | cudaMemcpyDeviceToHost
  | cudaMemcpyHostToDevice
  deriving DecidableEq, Repr

/-- Observable side effects of the swap paths, in program order. -/
inductive SwapEvent where
  | host_alloc (ids : List Nat)
  | device_alloc (ids : List Nat)
  | memcpy_async (dst src bytes : Nat) (kind : CopyKind) (stream : StreamTag)
  | free_device (ids : List Nat)
  | free_host (ids : List Nat)
  deriving DecidableEq, Repr

/-- The block-manager state touched by the swap paths: the host allocator,
one device allocator per rank, the currently bound device
(`cudaSetDevice` / `GetDeviceId`), and the context's flag
`IsRunContextDecodeAndDecodeSerially`. -/
structure BlockManagerState where
  host_allocator : AllocatorState
  device_allocators : List AllocatorState
  bound_device_id : Nat
  run_serially : Bool

/-- Result of a swap call: the returned status (a thrown
`std::runtime_error` for the unimplemented concurrent path is modelled as
the spec's `UNIMPLEMENTED` kind), the out-parameter block list as far as
written, the state, and the event trace. -/
structure SwapOutcome where
  status : Status
  out_blocks : List Nat
  state : BlockManagerState
  trace : List SwapEvent

/-- `BlockManager::SwapOut` (block_manager.cpp:171-206): allocate host
blocks, look up host and device addresses, pick the bound rank's compute
stream in CONTEXT/DECODE-serial mode (the concurrent mode throws before
any copy), issue one device-to-host `cudaMemcpyAsync` per block, then
free the device blocks (the C++ ignores the return value of that final
`FreeBlocks` call and returns `Status()`). -/
def SwapOut (cfg : BlockManagerConfig) (st : BlockManagerState)
    (device_blocks : List Nat) : SwapOutcome :=
  match AllocateBlocks st.host_allocator device_blocks.length with
  | Except.error e => ⟨e, [], st, []⟩
  | Except.ok (host_blocks, host_st) =>
    let st1 := { st with host_allocator := host_st }
    let ev1 := [SwapEvent.host_alloc host_blocks]
    match GetBlockPtrs host_st host_blocks with
    | Except.error e => ⟨e, host_blocks, st1, ev1⟩
    | Except.ok host_addrs =>
      let device_id := st.bound_device_id
      let block_size := cfg.device_allocator_config.block_size
      let dev_alloc := st.device_allocators.getD device_id AllocatorState.empty
      match GetBlockPtrs dev_alloc device_blocks with
      | Except.error e => ⟨e, host_blocks, st1, ev1⟩
      | Except.ok device_addrs =>
        if st.run_serially then
          let stream := StreamTag.compute device_id
          let copies := (host_addrs.zip device_addrs).map
            (fun p => SwapEvent.memcpy_async p.1 p.2 block_size
              CopyKind.cudaMemcpyDeviceToHost stream)
          match FreeBlocks dev_alloc device_blocks with
          | Except.error _ =>
            ⟨Status.ok, host_blocks, st1, ev1 ++ copies ++ [SwapEvent.free_device device_blocks]⟩
          | Except.ok dev_st =>
            ⟨Status.ok, host_blocks,
             { st1 with device_allocators := st1.device_allocators.set device_id dev_st },
             ev1 ++ copies ++ [SwapEvent.free_device device_blocks]⟩
        else
          ⟨⟨RetCode.RET_UNIMPLEMENTED⟩, host_blocks, st1, ev1⟩

/-! ## Batch manager (batch_manager.cpp) -/

/-- The per-request state the driver loop can observe at shutdown. -/
structure DriverRequest where
  finished : Bool
  finish_status : Status
  deriving DecidableEq, Repr

/-- The state shared between `BatchManager::Process` (the driver thread)
and `BatchManager::Stop`: the `terminated_` flag, the queue waiter, the
join state of the driver thread, and the in-flight requests. -/
structure DriverState where
  terminated : Bool
  waiter_notified : Bool
  joined : Bool
  inflight : List DriverRequest
  deriving DecidableEq, Repr

/-- The `while (!terminated_)` loop of `BatchManager::Process`
(batch_manager.cpp:77-103), with explicit fuel. One iteration is
`Schedule` plus `Step`, modelled by `body`; `Schedule`/`Step` act on the
queues and requests only — they never write `terminated_`, the waiter or
the join state. -/
def ProcessLoop (body : List DriverRequest → List DriverRequest) :
    Nat → DriverState → DriverState
  | 0, st => st
  | fuel + 1, st =>
    if st.terminated then st
    else ProcessLoop body fuel { st with inflight := body st.inflight }

/-- `BatchManager::Stop` (batch_manager.cpp:111-125) called while an
iteration of the driver loop is in flight: `terminated_ = true` and the
waiter notification happen first (lines 114, 117); the already-started
iteration (`body`, whose loop condition was checked before the write)
runs to completion; the loop then re-checks `terminated_` and exits; the
driver thread is joined (lines 119-121). -/
def StopMidStep (body : List DriverRequest → List DriverRequest) (fuel : Nat)
    (st : DriverState) : DriverState :=
  let st1 := { st with terminated := true, waiter_notified := true }
  let st2 := { st1 with inflight := body st1.inflight }
  let st3 := ProcessLoop body fuel st2
  { st3 with joined := true }

/-- The inbound client `Request` fields read by `Enqueue`. -/
structure Request where
  req_id : Nat
  model_name : String
  input_tokens : List Int
  deriving DecidableEq, Repr

/-- The `InferRequest(req)` constructor: copy the client fields; the
scheduling fields start at their defaults. -/
def InferRequest.ofRequest (req : Request) : InferRequest :=
  { req_id := req.req_id
    model_name := req.model_name
    input_tokens := req.input_tokens
    finished := false
    finish_status := Status.ok
    notify_count := 0
    infer_stage := InferStage.STAGE_CONTEXT
    step := 0
    block_size := 0
    kv_cache_blocks := [] }

/-- The wrapped request as `BatchManager::Enqueue` prepares it
(batch_manager.cpp:53-60): per-rank KV lists resized to the tensor
parallel size, block size copied from the block manager, stage CONTEXT,
step 0. -/
def EnqueuedInferRequest (tensor_para_size block_size : Nat) (req : Request) : InferRequest :=
  { InferRequest.ofRequest req with
    kv_cache_blocks := List.replicate tensor_para_size []
    block_size := block_size
    infer_stage := InferStage.STAGE_CONTEXT
    step := 0 }

/-- Result of `BatchManager::Enqueue`. -/
structure EnqueueResult where
  status : Status
  state : BatchState
  infer_req : InferRequest
  trace : List SchedEvent
  queue_waiter_notified : Bool
  deriving DecidableEq, Repr

/-- `BatchManager::Enqueue` (batch_manager.cpp:48-73): wrap the client
request, hand it to `BatchScheduler::AddInferRequest`, log either way,
notify the queue waiter unconditionally, and return `Status()` no matter
what the scheduler answered. -/
def Enqueue (cfg : BatchSchedulerConfig) (tensor_para_size block_size : Nat)
    (st : BatchState) (req : Request) : EnqueueResult :=
  let infer_req := EnqueuedInferRequest tensor_para_size block_size req
  let r := AddInferRequest cfg st [infer_req]
  { status := Status.ok
    state := r.state
    infer_req := r.group.headD infer_req
    trace := r.trace
    queue_waiter_notified := true }

/-! ## Step driver marshalling (llama.cpp) -/

/-- The `ForwardRequest` fields read by the marshalling code: the token
list and the per-rank KV block pointers (byte addresses). -/
structure ForwardRequest where
  output_tokens : List Int
  kv_cache_ptrs : List (List Nat)
  deriving DecidableEq, Repr

/-- The `input_ids` staging buffer of `Llama::ContextDecode`
(llama.cpp:184-203): every token of every request, appended in request
order. -/
def ContextInputIds (forward_reqs : List ForwardRequest) : List Int :=
  forward_reqs.foldl (fun acc r => acc ++ r.output_tokens) []

/-- The `input_ids` staging buffer of `Llama::Decode` (llama.cpp:452-473):
`req_input->at(length - 1)` for each request, i.e. one token per request. -/
def DecodeInputIds (forward_reqs : List ForwardRequest) : List Int :=
  forward_reqs.map (fun r => r.output_tokens.getD (r.output_tokens.length - 1) 0)

/-- The batch's block pointers of one rank in request order
(`forward_reqs[idx].kv_cache_ptrs[rank]`, idx ascending). -/
def BatchBlockPtrs (rank : Nat) (forward_reqs : List ForwardRequest) : List Nat :=
  forward_reqs.flatMap (fun r => r.kv_cache_ptrs.getD rank [])

/-- `total_block_num` as accumulated by the marshalling loops
(llama.cpp:170-177, 438-445). -/
def TotalBlockNum (rank : Nat) (forward_reqs : List ForwardRequest) : Nat :=
  (forward_reqs.map (fun r => (r.kv_cache_ptrs.getD rank []).length)).sum

/-- The `cpu_kv_list` staging buffer (llama.cpp:216-249 and, identically,
492-525): for each layer, first the K pointers of every block of every
request in request order (`p + layer_idx * block_size / num_layer`, the
C++ grouping being `(layer_idx * block_size) / num_layer`), then the V
pointers (`+ block_size / num_layer / 2`); the flat write index
`layer_idx * total_block_num * 2 + kv_list_index` makes the layers
contiguous segments in layer order. -/
def BuildKvList (num_layer block_size rank : Nat)
    (forward_reqs : List ForwardRequest) : List Nat :=
  (List.range num_layer).flatMap (fun layer_idx =>
    forward_reqs.flatMap (fun r => (r.kv_cache_ptrs.getD rank []).map
        (fun p => p + layer_idx * block_size / num_layer))
    ++ forward_reqs.flatMap (fun r => (r.kv_cache_ptrs.getD rank []).map
        (fun p => p + layer_idx * block_size / num_layer + block_size / num_layer / 2)))

/-! ## Concrete sample data used by witnesses and counterexamples -/

/-- A request with the given id and prompt; every other field at its
enqueue-time default. -/
def sampleReq (id : Nat) (toks : List Int) : InferRequest :=
  { req_id := id
    model_name := "llama"
    input_tokens := toks
    finished := false
    finish_status := Status.ok
    notify_count := 0
    infer_stage := InferStage.STAGE_CONTEXT
    step := 0
    block_size := 0
    kv_cache_blocks := [] }

/-! ## Theorems for the claims -/

/-- Claim C1, counterexample: with `max_waiting_queue_len = 3` and the
waiting queue currently holding exactly `max_waiting_queue_len - 1 = 2`
requests, `AddInferRequest` on a group of size 1 answers
`RET_EXCEED_CAPACITY` — it does not accept, because the gate is
`waiting_queue.size() + new >= max_waiting_queue_len`. -/
theorem addInferRequest_rejects_at_max_minus_one :
    (AddInferRequest ⟨3, 10, 11, 8⟩ ⟨[sampleReq 1 [1], sampleReq 2 [2]], []⟩
        [sampleReq 3 [3]]).status.code = RetCode.RET_EXCEED_CAPACITY := by
  decide

/-- Claim C1 (amended): for a single incoming request group of size 1
whose prompt is within `max_token_len`, `AddInferRequest` accepts exactly
when `waiting_queue.size() + 1 < max_waiting_queue_len` (so the last
accepted queue length is `max_waiting_queue_len - 2`), and rejects with
`RET_EXCEED_CAPACITY` exactly when `waiting_queue.size() + 1 ≥
max_waiting_queue_len` — in particular both at queue length
`max_waiting_queue_len - 1` and at `max_waiting_queue_len`. -/
theorem addInferRequest_capacity_threshold (cfg : BatchSchedulerConfig)
    (st : BatchState) (r : InferRequest)
    (hlen : r.input_tokens.length ≤ cfg.max_token_len) :
    ((AddInferRequest cfg st [r]).status.code = RetCode.RET_SUCCESS
        ↔ st.waiting_queue.length + 1 < cfg.max_waiting_queue_len)
    ∧ ((AddInferRequest cfg st [r]).status.code = RetCode.RET_EXCEED_CAPACITY
        ↔ cfg.max_waiting_queue_len ≤ st.waiting_queue.length + 1) := by
  have hlen' : ¬ (cfg.max_token_len < r.input_tokens.length) := Nat.not_lt.mpr hlen
  by_cases hq : cfg.max_waiting_queue_len ≤ st.waiting_queue.length + 1
  · simp [AddInferRequest, CheckWaitingQueueFull, RejectGroup, hq]
  · simp [AddInferRequest, CheckWaitingQueueFull, CheckRequestExceedLength, Status.ok,
      hq, hlen']
    omega

/-- Claim C1 witness: with `max_waiting_queue_len = 3`, a queue of length
1 accepts one more request and a queue of length 2 rejects it with
`RET_EXCEED_CAPACITY`. -/
theorem addInferRequest_capacity_threshold_witness :
    (AddInferRequest ⟨3, 10, 11, 8⟩ ⟨[sampleReq 1 [1]], []⟩
        [sampleReq 3 [3]]).status.code = RetCode.RET_SUCCESS
    ∧ (AddInferRequest ⟨3, 10, 11, 8⟩ ⟨[sampleReq 1 [1], sampleReq 2 [2]], []⟩
        [sampleReq 3 [3]]).status.code = RetCode.RET_EXCEED_CAPACITY :=
  ⟨(addInferRequest_capacity_threshold ⟨3, 10, 11, 8⟩ ⟨[sampleReq 1 [1]], []⟩
      (sampleReq 3 [3]) (by decide)).1.mpr (by decide),
   (addInferRequest_capacity_threshold ⟨3, 10, 11, 8⟩
      ⟨[sampleReq 1 [1], sampleReq 2 [2]], []⟩
      (sampleReq 3 [3]) (by decide)).2.mpr (by decide)⟩

/-- Claim C5: when the waiting-queue gate passes, `AddInferRequest`
accepts exactly the prompts of length at most `max_token_len` and rejects
with `RET_EXCEED_LENGTH` exactly the strictly longer ones — so length
`max_token_len` is accepted and `max_token_len + 1` is rejected. -/
theorem addInferRequest_length_threshold (cfg : BatchSchedulerConfig)
    (st : BatchState) (r : InferRequest)
    (hcap : st.waiting_queue.length + 1 < cfg.max_waiting_queue_len) :
    ((AddInferRequest cfg st [r]).status.code = RetCode.RET_SUCCESS
        ↔ r.input_tokens.length ≤ cfg.max_token_len)
    ∧ ((AddInferRequest cfg st [r]).status.code = RetCode.RET_EXCEED_LENGTH
        ↔ cfg.max_token_len < r.input_tokens.length) := by
  have hq : ¬ (cfg.max_waiting_queue_len ≤ st.waiting_queue.length + 1) := Nat.not_le.mpr hcap
  by_cases hl : cfg.max_token_len < r.input_tokens.length
  · simp [AddInferRequest, CheckWaitingQueueFull, CheckRequestExceedLength, RejectGroup,
      hq, hl]
  · simp [AddInferRequest, CheckWaitingQueueFull, CheckRequestExceedLength, Status.ok,
      hq, hl]
    omega

/-- Claim C5 witness: with `max_token_len = 2` and a non-full queue, a
prompt of length exactly 2 is accepted and a prompt of length 3 is
rejected with `RET_EXCEED_LENGTH`. -/
theorem addInferRequest_length_threshold_witness :
    (AddInferRequest ⟨3, 2, 11, 8⟩ ⟨[], []⟩
        [sampleReq 7 [1, 2]]).status.code = RetCode.RET_SUCCESS
    ∧ (AddInferRequest ⟨3, 2, 11, 8⟩ ⟨[], []⟩
        [sampleReq 8 [1, 2, 3]]).status.code = RetCode.RET_EXCEED_LENGTH :=
  ⟨(addInferRequest_length_threshold ⟨3, 2, 11, 8⟩ ⟨[], []⟩
      (sampleReq 7 [1, 2]) (by decide)).1.mpr (by decide),
   (addInferRequest_length_threshold ⟨3, 2, 11, 8⟩ ⟨[], []⟩
      (sampleReq 8 [1, 2, 3]) (by decide)).2.mpr (by decide)⟩

/-- Claim C6, counterexample: a group of two requests rejected by
capacity (`max_waiting_queue_len = 1`). Both end `finished = true` and
the call answers `RET_EXCEED_CAPACITY`, but the second request of the
group is notified zero times and keeps its default success status — the
shared rejection status and the notification reach only the first
request, so "each request in the group is notified exactly once" fails. -/
theorem addInferRequest_reject_skips_tail_notification :
    ((AddInferRequest ⟨1, 10, 11, 8⟩ ⟨[], []⟩
        [sampleReq 1 [5], sampleReq 2 [6]]).group.getD 1 (sampleReq 0 [])).notify_count = 0
    ∧ ((AddInferRequest ⟨1, 10, 11, 8⟩ ⟨[], []⟩
        [sampleReq 1 [5], sampleReq 2 [6]]).group.getD 1 (sampleReq 0 [])).finish_status.code
        = RetCode.RET_SUCCESS
    ∧ ((AddInferRequest ⟨1, 10, 11, 8⟩ ⟨[], []⟩
        [sampleReq 1 [5], sampleReq 2 [6]]).group.getD 1 (sampleReq 0 [])).finished = true
    ∧ (AddInferRequest ⟨1, 10, 11, 8⟩ ⟨[], []⟩
        [sampleReq 1 [5], sampleReq 2 [6]]).status.code = RetCode.RET_EXCEED_CAPACITY := by
  decide

/-- Claim C6 (amended): for every request group rejected by
`AddInferRequest` (by capacity or by length), every request of the group
ends `finished = true`; the first request of the group receives the
shared rejection status and exactly one notification, which happens after
all the `finished` writes; the remaining requests receive neither the
status nor a notification (their status fields and notification counts
are unchanged). The returned group and event trace are characterized
exactly. -/
theorem addInferRequest_reject_marks_group (cfg : BatchSchedulerConfig)
    (st : BatchState) (g0 : InferRequest) (rest : List InferRequest)
    (hrej : (AddInferRequest cfg st (g0 :: rest)).status.code ≠ RetCode.RET_SUCCESS) :
    (AddInferRequest cfg st (g0 :: rest)).group
      = { g0 with
          finish_status := (AddInferRequest cfg st (g0 :: rest)).status
          finished := true
          notify_count := g0.notify_count + 1 }
        :: rest.map (fun q => { q with finished := true })
    ∧ (AddInferRequest cfg st (g0 :: rest)).trace
      = SchedEvent.set_status g0.req_id (AddInferRequest cfg st (g0 :: rest)).status.code
        :: ((g0 :: rest).map (fun q => SchedEvent.set_finished q.req_id)
            ++ [SchedEvent.notify g0.req_id])
    ∧ (AddInferRequest cfg st (g0 :: rest)).state = st := by
  by_cases hq : CheckWaitingQueueFull cfg st (rest.length + 1) = true
  · simp [AddInferRequest, RejectGroup, hq]
  · by_cases hl : CheckRequestExceedLength cfg g0 = true
    · simp [AddInferRequest, RejectGroup, hq, hl]
    · exfalso
      apply hrej
      simp [AddInferRequest, hq, hl, Status.ok]

/-- Claim C6 witness: the amended statement at the concrete rejected
group of the counterexample. -/
theorem addInferRequest_reject_marks_group_witness :
    (AddInferRequest ⟨1, 10, 11, 8⟩ ⟨[], []⟩
        [sampleReq 1 [5], sampleReq 2 [6]]).status.code ≠ RetCode.RET_SUCCESS
    ∧ ((AddInferRequest ⟨1, 10, 11, 8⟩ ⟨[], []⟩ [sampleReq 1 [5], sampleReq 2 [6]]).group
      = { sampleReq 1 [5] with
          finish_status := (AddInferRequest ⟨1, 10, 11, 8⟩ ⟨[], []⟩
            [sampleReq 1 [5], sampleReq 2 [6]]).status
          finished := true
          notify_count := (sampleReq 1 [5]).notify_count + 1 }
        :: [sampleReq 2 [6]].map (fun q => { q with finished := true })
    ∧ (AddInferRequest ⟨1, 10, 11, 8⟩ ⟨[], []⟩ [sampleReq 1 [5], sampleReq 2 [6]]).trace
      = SchedEvent.set_status (sampleReq 1 [5]).req_id
          (AddInferRequest ⟨1, 10, 11, 8⟩ ⟨[], []⟩
            [sampleReq 1 [5], sampleReq 2 [6]]).status.code
        :: (([sampleReq 1 [5], sampleReq 2 [6]].map
              (fun q => SchedEvent.set_finished q.req_id))
            ++ [SchedEvent.notify (sampleReq 1 [5]).req_id])
    ∧ (AddInferRequest ⟨1, 10, 11, 8⟩ ⟨[], []⟩
        [sampleReq 1 [5], sampleReq 2 [6]]).state = (⟨[], []⟩ : BatchState)) :=
  ⟨by decide,
   addInferRequest_reject_marks_group ⟨1, 10, 11, 8⟩ ⟨[], []⟩
     (sampleReq 1 [5]) [sampleReq 2 [6]] (by decide)⟩

/-- Claim C9: the `BatchScheduler` constructor's validation fails for
every configuration with `max_step_tokens ≤ max_token_len`; construction
passes the check exactly when `max_step_tokens > max_token_len`. -/
theorem batchSchedulerCtor_requires_larger_step_tokens (cfg : BatchSchedulerConfig)
    (h : cfg.max_step_tokens ≤ cfg.max_token_len) :
    BatchSchedulerCtorCheck cfg = false := by
  simp [BatchSchedulerCtorCheck]
  omega

/-- Claim C9 witness: `max_step_tokens = max_token_len = 7` fails the
constructor validation. -/
theorem batchSchedulerCtor_requires_larger_step_tokens_witness :
    BatchSchedulerCtorCheck ⟨5, 7, 7, 1⟩ = false :=
  batchSchedulerCtor_requires_larger_step_tokens ⟨5, 7, 7, 1⟩ (by decide)

/-- Claim C10: `BatchManager::Enqueue` returns `Status()` (success) for
every request and notifies the driver's queue waiter unconditionally;
when the scheduler's `AddInferRequest` rejects, the rejection is
observable only on the request object — `finished = true`, the
scheduler's status in `finish_status`, and exactly one notification. -/
theorem enqueue_masks_scheduler_rejection (cfg : BatchSchedulerConfig)
    (tensor_para_size block_size : Nat) (st : BatchState) (req : Request) :
    (Enqueue cfg tensor_para_size block_size st req).status = Status.ok
    ∧ (Enqueue cfg tensor_para_size block_size st req).queue_waiter_notified = true
    ∧ ((AddInferRequest cfg st
          [EnqueuedInferRequest tensor_para_size block_size req]).status.code
          ≠ RetCode.RET_SUCCESS →
        (Enqueue cfg tensor_para_size block_size st req).infer_req.finished = true
        ∧ (Enqueue cfg tensor_para_size block_size st req).infer_req.finish_status
          = (AddInferRequest cfg st
              [EnqueuedInferRequest tensor_para_size block_size req]).status
        ∧ (Enqueue cfg tensor_para_size block_size st req).infer_req.notify_count = 1) := by
  refine ⟨rfl, rfl, fun hrej => ?_⟩
  have h := addInferRequest_reject_marks_group cfg st
    (EnqueuedInferRequest tensor_para_size block_size req) [] hrej
  simp only [Enqueue, h.1]
  refine ⟨rfl, rfl, ?_⟩
  simp [EnqueuedInferRequest, InferRequest.ofRequest]

/-- Claim C10 witness: with `max_waiting_queue_len = 1` the scheduler
rejects by capacity, yet `Enqueue` answers success, notifies the waiter,
and the rejection shows up only on the request object. -/
theorem enqueue_masks_scheduler_rejection_witness :
    (Enqueue ⟨1, 4, 11, 8⟩ 2 64 ⟨[], []⟩ ⟨9, "llama", [1, 2]⟩).status = Status.ok
    ∧ (Enqueue ⟨1, 4, 11, 8⟩ 2 64 ⟨[], []⟩ ⟨9, "llama", [1, 2]⟩).queue_waiter_notified = true
    ∧ ((Enqueue ⟨1, 4, 11, 8⟩ 2 64 ⟨[], []⟩ ⟨9, "llama", [1, 2]⟩).infer_req.finished = true
        ∧ (Enqueue ⟨1, 4, 11, 8⟩ 2 64 ⟨[], []⟩ ⟨9, "llama", [1, 2]⟩).infer_req.finish_status
          = (AddInferRequest ⟨1, 4, 11, 8⟩ ⟨[], []⟩
              [EnqueuedInferRequest 2 64 ⟨9, "llama", [1, 2]⟩]).status
        ∧ (Enqueue ⟨1, 4, 11, 8⟩ 2 64 ⟨[], []⟩ ⟨9, "llama", [1, 2]⟩).infer_req.notify_count = 1) :=
  ⟨(enqueue_masks_scheduler_rejection ⟨1, 4, 11, 8⟩ 2 64 ⟨[], []⟩ ⟨9, "llama", [1, 2]⟩).1,
   (enqueue_masks_scheduler_rejection ⟨1, 4, 11, 8⟩ 2 64 ⟨[], []⟩ ⟨9, "llama", [1, 2]⟩).2.1,
   (enqueue_masks_scheduler_rejection ⟨1, 4, 11, 8⟩ 2 64 ⟨[], []⟩ ⟨9, "llama", [1, 2]⟩).2.2
     (by decide)⟩

/-- The concrete configuration exhibiting the C2 capacity-sizing bug:
`block_device_memory_ratio = 1.0`, device block size 8 bytes, ample host
memory (all ratio values are exactly representable doubles). -/
def cfgC2 : BlockManagerConfig :=
  { reserved_device_memory_ratio := 1/2
    lora_host_memory_factor := 2
    block_host_memory_factor := 2
    block_device_memory_ratio := 1
    device_allocator_config := ⟨8, 0, 16⟩
    host_allocator_config := ⟨8, 0, 16⟩ }

/-- Memory readings for the C2 failing input: 8192 bytes of device
memory, a gigabyte free on the host. -/
def memC2 : MemoryInfo := ⟨10 ^ 9, 10 ^ 9, 8192, 8192⟩

/-- Claim C2 (code bug evaluation): with `device_total = 8192`,
`block_device_memory_ratio = 1.0` and `block_size = 8`, the claim's
documented formula `(device_total * block_device_memory_ratio) /
block_size` gives 1024 device blocks, but `CalculateBlockNumber` returns
128: its `≥ 0` branch computes `(device_total * ratio) / alignment_bytes`
and never multiplies the alignment back (unlike the `< 0` branch), so the
device block count is an eighth of the documented one. The host side
follows the factor: `host_block_num = 128 * 2 = 256`. -/
theorem calculateBlockNumber_divides_by_alignment :
    CalculateBlockNumber cfgC2 memC2 = Except.ok (128, 256)
    ∧ ClaimedDeviceBlocksNum cfgC2 memC2 = 1024 := by
  constructor
  · simp only [CalculateBlockNumber, cfgC2, memC2, toSizeT, alignment_bytes]
    norm_num
    simp
    norm_num
    simp
  · simp only [ClaimedDeviceBlocksNum, cfgC2, memC2, toSizeT]
    norm_num
    rfl

/-- Exiting the driver loop: once `terminated_` is observed true, the
loop body never runs again and the state is returned as is. -/
theorem processLoop_terminated (body : List DriverRequest → List DriverRequest)
    (fuel : Nat) (st : DriverState) (h : st.terminated = true) :
    ProcessLoop body fuel st = st := by
  cases fuel <;> simp [ProcessLoop, h]

/-- Claim C8, counterexample: `Stop()` with one unfinished in-flight
request (and an identity step body) leaves the request unfinished with
its default success status — no in-flight request is marked finished
with status `STOPPED`, because no code on the `Stop` path writes request
state at all. -/
theorem stop_does_not_mark_requests_stopped :
    (StopMidStep id 5 ⟨false, false, false, [⟨false, Status.ok⟩]⟩).inflight
      = [⟨false, Status.ok⟩]
    ∧ ¬ (∀ r ∈ (StopMidStep id 5 ⟨false, false, false, [⟨false, Status.ok⟩]⟩).inflight,
          r.finished = true ∧ r.finish_status.code = RetCode.RET_STOPPED) := by
  decide

/-- Claim C8 (amended): when `Stop()` is called mid-generation, the
driver finishes its current step (the body runs to completion exactly
once more), observes `terminated_`, exits its loop and is joined, with
the waiter notified — and the in-flight requests are left exactly as the
final step left them: `Stop` marks no request finished and assigns no
`STOPPED` status. -/
theorem stop_mid_step_shutdown (body : List DriverRequest → List DriverRequest)
    (fuel : Nat) (st : DriverState) :
    StopMidStep body fuel st
      = { terminated := true, waiter_notified := true, joined := true,
          inflight := body st.inflight } := by
  simp only [StopMidStep]
  rw [processLoop_terminated body fuel _ rfl]

/-! ## Step-driver layout lemmas -/

/-- Extracting segment `L` from the concatenation of equally long
segments. -/
theorem flatten_segment {α : Type} (ls : List (List α)) (s : Nat)
    (h : ∀ l ∈ ls, l.length = s) (L : Nat) (hL : L < ls.length) :
    (ls.flatten.drop (L * s)).take s = ls.get ⟨L, hL⟩ := by
  induction ls generalizing L with
  | nil => simp at hL
  | cons a tl ih =>
    have ha : a.length = s := h a (by simp)
    cases L with
    | zero =>
      simp only [List.flatten_cons, Nat.zero_mul, List.drop_zero, List.get]
      rw [← ha, List.take_left]
    | succ L =>
      have hmul : (L + 1) * s = a.length + L * s := by rw [ha]; ring
      simp only [List.flatten_cons, hmul, List.drop_append, List.get]
      exact ih (fun l hl => h l (by simp [hl])) L (by simpa using hL)

/-- The per-layer segment the kv-list loops write: K pointers of the
whole batch, then V pointers of the whole batch. -/
def KvLayerSegment (num_layer block_size rank : Nat)
    (forward_reqs : List ForwardRequest) (layer_idx : Nat) : List Nat :=
  forward_reqs.flatMap (fun r => (r.kv_cache_ptrs.getD rank []).map
      (fun p => p + layer_idx * block_size / num_layer))
    ++ forward_reqs.flatMap (fun r => (r.kv_cache_ptrs.getD rank []).map
      (fun p => p + layer_idx * block_size / num_layer + block_size / num_layer / 2))

/-- `BuildKvList` is the concatenation of the per-layer segments in layer
order. -/
theorem buildKvList_eq_flatten (num_layer block_size rank : Nat)
    (forward_reqs : List ForwardRequest) :
    BuildKvList num_layer block_size rank forward_reqs
      = ((List.range num_layer).map
          (KvLayerSegment num_layer block_size rank forward_reqs)).flatten := by
  rw [BuildKvList, List.flatMap_def]
  rfl

/-- Every per-layer segment has length `2 * TotalBlockNum`. -/
theorem kvLayerSegment_length (num_layer block_size rank : Nat)
    (forward_reqs : List ForwardRequest) (layer_idx : Nat) :
    (KvLayerSegment num_layer block_size rank forward_reqs layer_idx).length
      = TotalBlockNum rank forward_reqs * 2 := by
  simp only [KvLayerSegment, List.length_append, List.length_flatMap, Function.comp_def,
    List.length_map, TotalBlockNum]
  omega

/-- Claim C3: the kv-list built by the step driver (identically in
CONTEXT and DECODE) has shape `[num_layer, total_block_num * 2]`; for
every layer `L`, its segment consists of the K pointers
`block_ptr + L * (block_size / num_layer)` of the batch's blocks in
request order, followed by the V pointers shifted by another
`(block_size / num_layer) / 2`. The hypothesis `num_layer ∣ block_size`
is the block-layout invariant (`per_layer = block_size / num_layer`
exactly); under it the C++ grouping `(L * block_size) / num_layer`
coincides with the claim's `L * (block_size / num_layer)`. -/
theorem kv_list_layout (num_layer block_size rank : Nat)
    (forward_reqs : List ForwardRequest) (L : Nat)
    (hL : L < num_layer) (hdvd : num_layer ∣ block_size) :
    (BuildKvList num_layer block_size rank forward_reqs).length
      = num_layer * (TotalBlockNum rank forward_reqs * 2)
    ∧ ((BuildKvList num_layer block_size rank forward_reqs).drop
          (L * (TotalBlockNum rank forward_reqs * 2))).take
          (TotalBlockNum rank forward_reqs * 2)
      = (BatchBlockPtrs rank forward_reqs).map
          (fun p => p + L * (block_size / num_layer))
        ++ (BatchBlockPtrs rank forward_reqs).map
          (fun p => p + L * (block_size / num_layer) + (block_size / num_layer) / 2) := by
  constructor
  · rw [buildKvList_eq_flatten, List.length_flatten, List.map_map]
    have hcongr : ∀ li ∈ List.range num_layer,
        (List.length ∘ KvLayerSegment num_layer block_size rank forward_reqs) li
          = TotalBlockNum rank forward_reqs * 2 := by
      intro li _
      exact kvLayerSegment_length num_layer block_size rank forward_reqs li
    rw [List.map_congr_left hcongr, List.map_const', List.length_range, List.sum_replicate,
      smul_eq_mul]
  · rw [buildKvList_eq_flatten]
    have hseg := flatten_segment
      ((List.range num_layer).map (KvLayerSegment num_layer block_size rank forward_reqs))
      (TotalBlockNum rank forward_reqs * 2)
      (by
        intro l hl
        rcases List.mem_map.mp hl with ⟨li, _, rfl⟩
        exact kvLayerSegment_length num_layer block_size rank forward_reqs li)
      L (by simpa using hL)
    rw [hseg]
    have hget : ((List.range num_layer).map
          (KvLayerSegment num_layer block_size rank forward_reqs)).get
            ⟨L, by simpa using hL⟩
        = KvLayerSegment num_layer block_size rank forward_reqs L := by
      simp
    rw [hget, KvLayerSegment, BatchBlockPtrs, List.map_flatMap, List.map_flatMap]
    simp only [List.map_map, Function.comp, Nat.mul_div_assoc L hdvd]

/-- The two forward requests used by the step-driver witnesses, with
two ranks' worth of block pointers. -/
def sampleFwd1 : ForwardRequest := ⟨[1, 2, 3], [[10000], [50000]]⟩

/-- Second sample forward request (two blocks on each rank). -/
def sampleFwd2 : ForwardRequest := ⟨[4, 5], [[20000, 30000], [60000, 70000]]⟩

/-- Claim C3 witness: `num_layer = 2`, `block_size = 1024`, rank 0,
layer 1 — the layer-1 segment is the K pointers at `+512` followed by
the V pointers at `+768`, matching spec scenario 6. -/
theorem kv_list_layout_witness :
    ((1 : Nat) < 2 ∧ (2 : Nat) ∣ 1024)
    ∧ ((BuildKvList 2 1024 0 [sampleFwd1, sampleFwd2]).length
        = 2 * (TotalBlockNum 0 [sampleFwd1, sampleFwd2] * 2)
      ∧ ((BuildKvList 2 1024 0 [sampleFwd1, sampleFwd2]).drop
            (1 * (TotalBlockNum 0 [sampleFwd1, sampleFwd2] * 2))).take
            (TotalBlockNum 0 [sampleFwd1, sampleFwd2] * 2)
        = (BatchBlockPtrs 0 [sampleFwd1, sampleFwd2]).map
            (fun p => p + 1 * (1024 / 2))
          ++ (BatchBlockPtrs 0 [sampleFwd1, sampleFwd2]).map
            (fun p => p + 1 * (1024 / 2) + (1024 / 2) / 2)) :=
  ⟨⟨by decide, by decide⟩,
   kv_list_layout 2 1024 0 [sampleFwd1, sampleFwd2] 1 (by decide) (by decide)⟩

/-- Folding append over a list, from any accumulator. -/
theorem foldl_append_tokens (forward_reqs : List ForwardRequest) (acc : List Int) :
    forward_reqs.foldl (fun acc r => acc ++ r.output_tokens) acc
      = acc ++ (forward_reqs.map ForwardRequest.output_tokens).flatten := by
  induction forward_reqs generalizing acc with
  | nil => simp
  | cons a tl ih => simp [ih, List.append_assoc]

/-- The element the DECODE loop reads, `at(length - 1)`, is the last
element of a nonempty list. -/
theorem getD_len_sub_one_eq_getLast {l : List Int} (h : l ≠ []) :
    l.getD (l.length - 1) 0 = l.getLast h := by
  have hpos : 0 < l.length := List.length_pos.mpr h
  rw [List.getD_eq_getElem l 0 (by omega), List.getLast_eq_getElem]

/-- Claim C7: the CONTEXT-stage `input_ids` is the concatenation of every
request's tokens in request order, with total length the sum of the
requests' token counts; the DECODE-stage `input_ids` holds exactly one
token per request — the last element of that request's `output_tokens` —
with total length the batch size. -/
theorem step_input_ids_layout (forward_reqs : List ForwardRequest)
    (hne : ∀ r ∈ forward_reqs, r.output_tokens ≠ []) :
    ContextInputIds forward_reqs
      = (forward_reqs.map ForwardRequest.output_tokens).flatten
    ∧ (ContextInputIds forward_reqs).length
      = (forward_reqs.map (fun r => r.output_tokens.length)).sum
    ∧ (DecodeInputIds forward_reqs).length = forward_reqs.length
    ∧ ∀ (i : Nat) (hi : i < forward_reqs.length),
        (DecodeInputIds forward_reqs).getD i 0
          = (forward_reqs.get ⟨i, hi⟩).output_tokens.getLast
              (hne _ (forward_reqs.get_mem i hi)) := by
  have hctx : ContextInputIds forward_reqs
      = (forward_reqs.map ForwardRequest.output_tokens).flatten := by
    rw [ContextInputIds, foldl_append_tokens]
    simp
  refine ⟨hctx, ?_, by simp [DecodeInputIds], ?_⟩
  · rw [hctx, List.length_flatten, List.map_map]
    rfl
  · intro i hi
    have hlen : (DecodeInputIds forward_reqs).length = forward_reqs.length := by
      simp [DecodeInputIds]
    rw [List.getD_eq_getElem _ 0 (by omega)]
    simp only [DecodeInputIds, List.getElem_map]
    have := getD_len_sub_one_eq_getLast (hne _ (forward_reqs.get_mem i hi))
    simpa using this

/-- Claim C7 witness: on the two sample requests, CONTEXT concatenates
`[1,2,3]` and `[4,5]`, and DECODE picks the last tokens `3` and `5`. -/
theorem step_input_ids_layout_witness :
    ContextInputIds [sampleFwd1, sampleFwd2] = [1, 2, 3, 4, 5]
    ∧ DecodeInputIds [sampleFwd1, sampleFwd2] = [3, 5]
    ∧ (DecodeInputIds [sampleFwd1, sampleFwd2]).getD 1 0
      = sampleFwd2.output_tokens.getLast (by decide) := by
  refine ⟨by decide, by decide, ?_⟩
  exact (step_input_ids_layout [sampleFwd1, sampleFwd2] (by decide)).2.2.2 1 (by decide)

/-- Membership gives `contains`. -/
theorem contains_of_mem {l : List Nat} {a : Nat} (h : a ∈ l) : l.contains a = true := by
  simpa [List.contains] using List.elem_iff.mpr h

/-- Claim C4: in CONTEXT/DECODE-serial mode, `SwapOut` succeeds,
allocates exactly as many host blocks as there are device blocks,
issues every copy as a device-to-host `cudaMemcpyAsync` on the bound
rank's compute stream — one per block — and frees the device blocks only
after all copies are issued (the free event is the last of the trace);
in concurrent mode it fails with the `UNIMPLEMENTED` kind, with no copy
issued, no block freed, and the device allocators untouched. -/
theorem swapOut_serial_and_concurrent (cfg : BlockManagerConfig)
    (st : BlockManagerState) (device_blocks : List Nat)
    (hhost : device_blocks.length ≤ st.host_allocator.free_blocks.length)
    (hdev : ∀ b ∈ device_blocks,
        b ∈ (st.device_allocators.getD st.bound_device_id AllocatorState.empty).used_blocks) :
    ((SwapOut cfg { st with run_serially := true } device_blocks).status = Status.ok
      ∧ (SwapOut cfg { st with run_serially := true } device_blocks).out_blocks.length
          = device_blocks.length
      ∧ ∃ copies : List SwapEvent,
          (SwapOut cfg { st with run_serially := true } device_blocks).trace
            = SwapEvent.host_alloc
                (SwapOut cfg { st with run_serially := true } device_blocks).out_blocks
              :: (copies ++ [SwapEvent.free_device device_blocks])
          ∧ copies.length = device_blocks.length
          ∧ ∀ e ∈ copies, ∃ dst src, e = SwapEvent.memcpy_async dst src
              cfg.device_allocator_config.block_size CopyKind.cudaMemcpyDeviceToHost
              (StreamTag.compute st.bound_device_id))
    ∧ ((SwapOut cfg { st with run_serially := false } device_blocks).status
          = ⟨RetCode.RET_UNIMPLEMENTED⟩
      ∧ (SwapOut cfg { st with run_serially := false } device_blocks).trace
          = [SwapEvent.host_alloc
              (SwapOut cfg { st with run_serially := false } device_blocks).out_blocks]
      ∧ (SwapOut cfg { st with run_serially := false } device_blocks).state.device_allocators
          = st.device_allocators) := by
  have hAlloc : AllocateBlocks st.host_allocator device_blocks.length
      = Except.ok (st.host_allocator.free_blocks.take device_blocks.length,
          { st.host_allocator with
            free_blocks := st.host_allocator.free_blocks.drop device_blocks.length
            used_blocks := st.host_allocator.used_blocks
              ++ st.host_allocator.free_blocks.take device_blocks.length }) := by
    simp [AllocateBlocks, Nat.not_lt.mpr hhost]
  have hHostPtrs : GetBlockPtrs
      { st.host_allocator with
        free_blocks := st.host_allocator.free_blocks.drop device_blocks.length
        used_blocks := st.host_allocator.used_blocks
          ++ st.host_allocator.free_blocks.take device_blocks.length }
      (st.host_allocator.free_blocks.take device_blocks.length)
      = Except.ok ((st.host_allocator.free_blocks.take device_blocks.length).map
          st.host_allocator.addr_of) := by
    rw [GetBlockPtrs, if_pos]
    apply List.all_eq_true.mpr
    intro b hb
    simp
    exact Or.inl (Or.inr hb)
  have hDevPtrs : GetBlockPtrs
      (st.device_allocators.getD st.bound_device_id AllocatorState.empty) device_blocks
      = Except.ok (device_blocks.map
          (st.device_allocators.getD st.bound_device_id AllocatorState.empty).addr_of) := by
    rw [GetBlockPtrs, if_pos]
    apply List.all_eq_true.mpr
    intro b hb
    simpa using Or.inl (hdev b hb)
  have hFree : FreeBlocks
      (st.device_allocators.getD st.bound_device_id AllocatorState.empty) device_blocks
      = Except.ok
        { st.device_allocators.getD st.bound_device_id AllocatorState.empty with
          used_blocks := (st.device_allocators.getD st.bound_device_id
              AllocatorState.empty).used_blocks.filter
              (fun i => ! device_blocks.contains i)
          free_blocks := (st.device_allocators.getD st.bound_device_id
              AllocatorState.empty).free_blocks ++ device_blocks } := by
    rw [FreeBlocks, if_pos]
    apply List.all_eq_true.mpr
    intro b hb
    exact contains_of_mem (hdev b hb)
  constructor
  · simp only [SwapOut, hAlloc, hHostPtrs, hDevPtrs, hFree, if_true]
    refine ⟨trivial, by simpa using hhost, ?_⟩
    refine ⟨(((st.host_allocator.free_blocks.take device_blocks.length).map
        st.host_allocator.addr_of).zip (device_blocks.map
          (st.device_allocators.getD st.bound_device_id AllocatorState.empty).addr_of)).map
        (fun p => SwapEvent.memcpy_async p.1 p.2 cfg.device_allocator_config.block_size
          CopyKind.cudaMemcpyDeviceToHost (StreamTag.compute st.bound_device_id)),
      ?_, ?_, ?_⟩
    · simp
    · simp [List.length_take]
      omega
    · intro e he
      rcases List.mem_map.mp he with ⟨p, hp, rfl⟩
      exact ⟨p.1, p.2, rfl⟩
  · simp only [SwapOut, hAlloc, hHostPtrs, hDevPtrs]
    exact ⟨rfl, rfl, rfl⟩

/-- Concrete block-manager state for the swap witness: one device (rank
0) with used blocks 1 and 2, a host pool with two free blocks. -/
def bmStC4 : BlockManagerState :=
  { host_allocator := ⟨[100, 101], [], fun i => 5000 + i⟩
    device_allocators := [⟨[], [1, 2], fun i => 1000 * i⟩]
    bound_device_id := 0
    run_serially := true }

/-- Claim C4 witness: swapping out device blocks 1 and 2 of `bmStC4`. -/
theorem swapOut_serial_and_concurrent_witness :
    (([1, 2] : List Nat).length ≤ bmStC4.host_allocator.free_blocks.length
      ∧ ∀ b ∈ ([1, 2] : List Nat),
          b ∈ (bmStC4.device_allocators.getD bmStC4.bound_device_id
            AllocatorState.empty).used_blocks)
    ∧ (((SwapOut cfgC2 { bmStC4 with run_serially := true } [1, 2]).status = Status.ok
      ∧ (SwapOut cfgC2 { bmStC4 with run_serially := true } [1, 2]).out_blocks.length
          = ([1, 2] : List Nat).length
      ∧ ∃ copies : List SwapEvent,
          (SwapOut cfgC2 { bmStC4 with run_serially := true } [1, 2]).trace
            = SwapEvent.host_alloc
                (SwapOut cfgC2 { bmStC4 with run_serially := true } [1, 2]).out_blocks
              :: (copies ++ [SwapEvent.free_device [1, 2]])
          ∧ copies.length = ([1, 2] : List Nat).length
          ∧ ∀ e ∈ copies, ∃ dst src, e = SwapEvent.memcpy_async dst src
              cfgC2.device_allocator_config.block_size CopyKind.cudaMemcpyDeviceToHost
              (StreamTag.compute bmStC4.bound_device_id))
    ∧ ((SwapOut cfgC2 { bmStC4 with run_serially := false } [1, 2]).status
          = ⟨RetCode.RET_UNIMPLEMENTED⟩
      ∧ (SwapOut cfgC2 { bmStC4 with run_serially := false } [1, 2]).trace
          = [SwapEvent.host_alloc
              (SwapOut cfgC2 { bmStC4 with run_serially := false } [1, 2]).out_blocks]
      ∧ (SwapOut cfgC2 { bmStC4 with run_serially := false } [1, 2]).state.device_allocators
          = bmStC4.device_allocators)) :=
  ⟨⟨by decide, by decide⟩,
   swapOut_serial_and_concurrent cfgC2 bmStC4 [1, 2] (by decide) (by decide)⟩

end KsanaLLM
